import Mathlib

/-!
Verification of the ticket-triage agent (`triage_agent`): a shallow embedding
of the deterministic parts of the program — the domain model
(`models/ticket.py`, `models/triage_output.py`, `models/tools.py`), the rule
engine (`core/triage_logic.py`), the knowledge-base search tool
(`tools/knowledge_base.py`, `knowledge_base_data.py`), and the orchestrator's
business-rule overlay and rule-based fallback (`core/agent.py`) — together
with theorems checking the specification's claims about them.

Modelling conventions:
* Python strings are Lean `String`s; `needle in haystack` is `inStr`,
  `str.lower()` is `pyLower` (ASCII lowering — all keyword matching in the
  program is over ASCII text), `str.split()` is `pySplitL` (splitting on
  whitespace runs, dropping empties).
* Python floats are modelled as exact rationals `ℚ` (decimal literals are
  written as explicit fractions: `0.4` is `4/10`, `0.85` is `85/100`, …);
  `round(x, 2)` is modelled as rational rounding to 2 decimal places
  (`round2`).  The properties proved below (ranges, ordering, thresholds)
  are stable under this choice.
* Fallible Python code (a pydantic validation error propagating out of a
  function) is modelled with `Option`: `Option.none` means the Python call
  raises to its caller.
* JSON payload maps inside tool-call audit records (`inputs`/`outputs` of
  `ToolCallRecord`) are not modelled; a record keeps its `tool_name` and
  `success` flag, which is all the verified code paths branch on.
-/

/-! ## String utilities -/

/-- Sublist-of-consecutive-elements test: `listContains needle haystack`
models Python `needle in haystack` on the underlying character lists. -/
def listContains (needle : List Char) : List Char → Bool
  | [] => needle.isEmpty
  | c :: t => needle.isPrefixOf (c :: t) || listContains needle t

/-- Python `needle in haystack` for strings (substring containment). -/
def inStr (needle haystack : String) : Bool :=
  listContains needle.toList haystack.toList

/-- Python `str.lower()` (ASCII lowering; every keyword the program matches
against is ASCII). -/
def pyLower (s : String) : String :=
  ⟨s.toList.map Char.toLower⟩

/-- Helper for `pySplitL`: accumulates the current word (reversed) while
scanning. -/
def splitWsAux : List Char → List Char → List (List Char)
  | [], acc => if acc.isEmpty then [] else [acc.reverse]
  | c :: cs, acc =>
    if c.isWhitespace then
      if acc.isEmpty then splitWsAux cs [] else acc.reverse :: splitWsAux cs []
    else
      splitWsAux cs (c :: acc)

/-- Python `str.split()` with no argument: split on runs of whitespace,
discarding empty pieces. -/
def pySplitL (l : List Char) : List (List Char) :=
  splitWsAux l []

/-- Python `" ".join(words)` on character lists. -/
def joinSp : List (List Char) → List Char
  | [] => []
  | [w] => w
  | w :: ws => w ++ ' ' :: joinSp ws

/-- Python `str.split()` returning strings. -/
def pySplitStr (s : String) : List String :=
  (pySplitL s.toList).map fun l => ⟨l⟩

/-! ## Enumerations (`models/triage_output.py`) -/

/-- The `UrgencyLevel` enumeration. -/
inductive UrgencyLevel
  | critical | high | medium | low
  deriving DecidableEq, Repr

/-- The `IssueType` enumeration. -/
inductive IssueType
  | billing | outage | bug | feature_request | account | other
  deriving DecidableEq, Repr

/-- The `CustomerSentiment` enumeration. -/
inductive CustomerSentiment
  | very_negative | negative | neutral | positive | very_positive
  deriving DecidableEq, Repr

/-- The `RiskSignal` enumeration. -/
inductive RiskSignal
  | churn_risk | charge_dispute | legal_threat | social_media_threat
  | escalation_history | high_value_account | compliance_issue
  deriving DecidableEq, Repr

/-- The `RecommendedAction` enumeration. -/
inductive RecommendedAction
  | auto_respond | route_to_specialist | escalate_to_human
  deriving DecidableEq, Repr

/-- The `SpecialistQueue` enumeration. -/
inductive SpecialistQueue
  | billing | infra | enterprise_success | tier_2 | security | none
  deriving DecidableEq, Repr

/-- The `.value` wire string of an `UrgencyLevel` (the enum is a `str` enum;
`calculate_urgency_override` receives this string). -/
def urgencyValue : UrgencyLevel → String
  | .critical => "critical"
  | .high => "high"
  | .medium => "medium"
  | .low => "low"

/-! ## `SupportTicket` (`models/ticket.py`)

Construction-time validation (id/subject/body length bounds, email shape,
tier normalization) happens in pydantic before any code verified here runs;
theorems that depend on a construction constraint state it as a hypothesis.
The `metadata` map and `attachments` list are irrelevant to every verified
code path and are omitted. -/

structure SupportTicket where
  ticket_id : String
  subject : String
  body : String
  customer_email : String
  customer_name : Option String := Option.none
  customer_tier : String := "unknown"
  customer_region : Option String := Option.none
  timestamp : Option String := Option.none
  channel : String := "web"
  deriving DecidableEq, Repr

/-- Embedding of `SupportTicket.get_full_text`: subject, blank line, body. -/
def get_full_text (t : SupportTicket) : String :=
  t.subject ++ "\n\n" ++ t.body

/-- Embedding of `SupportTicket.is_enterprise`. -/
def is_enterprise (t : SupportTicket) : Bool :=
  pyLower t.customer_tier == "enterprise"

/-- The lower-cased combined text every rule-engine method recomputes as
`text = ticket.get_full_text().lower()`. -/
def textLower (t : SupportTicket) : String :=
  pyLower (get_full_text t)

/-! ## Rule engine (`core/triage_logic.py`) -/

/-- Embedding of `TriageLogic.CRITICAL_KEYWORDS`. -/
def CRITICAL_KEYWORDS : List String :=
  ["production down", "system down", "completely down",
   "security breach", "data leak", "data loss",
   "all users affected", "cannot access",
   "losing money", "losing customers", "urgent",
   "emergency", "critical", "asap", "immediately"]

/-- Embedding of `TriageLogic.CHURN_KEYWORDS`. -/
def CHURN_KEYWORDS : List String :=
  ["cancel", "canceling", "cancellation",
   "switch provider", "switching", "competitor",
   "leaving", "frustrated", "disappointed",
   "not worth", "waste of money", "refund"]

/-- Embedding of `TriageLogic.LEGAL_KEYWORDS`. -/
def LEGAL_KEYWORDS : List String :=
  ["lawyer", "attorney", "legal action",
   "lawsuit", "sue", "court",
   "dispute", "chargeback", "fraud"]

/-- Embedding of `TriageLogic.SOCIAL_MEDIA_KEYWORDS`. -/
def SOCIAL_MEDIA_KEYWORDS : List String :=
  ["twitter", "tweet", "post about",
   "tell everyone", "review", "public",
   "social media", "linkedin", "facebook"]

/-- Outage indicators used by rule 1 of `calculate_urgency_override`. -/
def outage_indicators : List String :=
  ["down", "outage", "unavailable", "503", "500"]

/-- Embedding of `TriageLogic.calculate_urgency_override(ticket, llm_urgency)`.  The three
rules run in source order with fall-through: rule 2's inner urgency test
failing falls through to rule 3. -/
def calculate_urgency_override (t : SupportTicket) (llm_urgency : String) :
    Option UrgencyLevel :=
  if is_enterprise t && outage_indicators.any (fun kw => inStr kw (textLower t)) then
    some UrgencyLevel.critical
  else if CRITICAL_KEYWORDS.any (fun kw => inStr kw (textLower t))
      && (llm_urgency == "low" || llm_urgency == "medium") then
    some UrgencyLevel.high
  else if is_enterprise t && llm_urgency == "low" then
    some UrgencyLevel.medium
  else
    Option.none

/-- Charge-dispute keywords (a local list inside `detect_risk_signals`). -/
def dispute_keywords : List String :=
  ["chargeback", "dispute", "unauthorized charge", "fraud"]

/-- Embedding of `TriageLogic.detect_risk_signals(ticket)`: appends the signals in source
order (churn, legal, social media, dispute, high-value account). -/
def detect_risk_signals (t : SupportTicket) : List RiskSignal :=
  (if CHURN_KEYWORDS.any (fun kw => inStr kw (textLower t)) then [RiskSignal.churn_risk] else [])
  ++ (if LEGAL_KEYWORDS.any (fun kw => inStr kw (textLower t)) then [RiskSignal.legal_threat] else [])
  ++ (if SOCIAL_MEDIA_KEYWORDS.any (fun kw => inStr kw (textLower t)) then [RiskSignal.social_media_threat] else [])
  ++ (if dispute_keywords.any (fun kw => inStr kw (textLower t)) then [RiskSignal.charge_dispute] else [])
  ++ (if is_enterprise t then [RiskSignal.high_value_account] else [])

/-- Embedding of `TriageLogic.determine_specialist_queue(issue_type, urgency, ticket,
risk_signals)`: first matching rule wins. -/
def determine_specialist_queue (issue_type : IssueType) (urgency : UrgencyLevel)
    (t : SupportTicket) (risk_signals : List RiskSignal) : SpecialistQueue :=
  if is_enterprise t ∧ (urgency = .critical ∨ urgency = .high) then
    .enterprise_success
  else if issue_type = .billing then
    .billing
  else if issue_type = .outage then
    .infra
  else if urgency = .critical ∨ issue_type = .bug then
    .tier_2
  else if RiskSignal.legal_threat ∈ risk_signals then
    .enterprise_success
  else
    .none

/-- Embedding of `TriageLogic.determine_action(urgency, sentiment, issue_type,
risk_signals, ticket, has_kb_results)`: first matching rule wins. -/
def determine_action (urgency : UrgencyLevel) (sentiment : CustomerSentiment)
    (issue_type : IssueType) (risk_signals : List RiskSignal)
    (t : SupportTicket) (has_kb_results : Bool) : RecommendedAction :=
  if urgency = .critical then
    .escalate_to_human
  else if RiskSignal.legal_threat ∈ risk_signals then
    .escalate_to_human
  else if sentiment = .very_negative ∧ RiskSignal.churn_risk ∈ risk_signals then
    .escalate_to_human
  else if is_enterprise t then
    .route_to_specialist
  else if urgency = .high then
    .route_to_specialist
  else if sentiment = .very_negative ∨ sentiment = .negative then
    .route_to_specialist
  else if issue_type = .feature_request ∧ has_kb_results then
    .auto_respond
  else if issue_type = .billing ∧ urgency = .low ∧ has_kb_results then
    .auto_respond
  else if urgency = .low ∧ (sentiment = .positive ∨ sentiment = .neutral)
      ∧ has_kb_results then
    .auto_respond
  else
    .route_to_specialist

/-- Billing keywords of `detect_issue_type_from_keywords`. -/
def billing_keywords : List String :=
  ["billing", "invoice", "charge", "payment", "subscription", "refund", "price"]

/-- Outage keywords of `detect_issue_type_from_keywords`. -/
def outage_keywords : List String :=
  ["down", "outage", "unavailable", "503", "500", "not working", "cant access"]

/-- Bug keywords of `detect_issue_type_from_keywords`. -/
def bug_keywords : List String :=
  ["bug", "error", "broken", "doesn\x27t work", "crash", "issue"]

/-- Feature-request keywords of `detect_issue_type_from_keywords`. -/
def feature_keywords : List String :=
  ["feature", "request", "suggestion", "would be nice", "add support for", "idea"]

/-- Account keywords of `detect_issue_type_from_keywords`. -/
def account_keywords : List String :=
  ["account", "login", "password", "access", "permission", "locked"]

/-- Embedding of `TriageLogic.detect_issue_type_from_keywords(ticket)`: first matching
keyword family wins; `Option.none` when nothing matches. -/
def detect_issue_type_from_keywords (t : SupportTicket) : Option IssueType :=
  if billing_keywords.any (fun kw => inStr kw (textLower t)) then some .billing
  else if outage_keywords.any (fun kw => inStr kw (textLower t)) then some .outage
  else if bug_keywords.any (fun kw => inStr kw (textLower t)) then some .bug
  else if feature_keywords.any (fun kw => inStr kw (textLower t)) then some .feature_request
  else if account_keywords.any (fun kw => inStr kw (textLower t)) then some .account
  else Option.none

/-! ## Knowledge base (`knowledge_base_data.py`, `tools/knowledge_base.py`,
`models/tools.py`) -/

/-- One catalog entry of `KNOWLEDGE_BASE_ARTICLES` (a plain dict in the
source: id, title, url, category, keywords, content). -/
structure KBArticle where
  id : String
  title : String
  url : String
  category : String
  keywords : List String
  content : String
  deriving DecidableEq, Repr

def KNOWLEDGE_BASE_ARTICLES : List KBArticle := [
  ⟨"KB-AUTH-001", "How to Reset Your Password", "https://help.example.com/articles/password-reset", "authentication",
   ["password", "reset", "forgot", "login", "access", "locked"],
   "\n        If you\x27ve forgotten your password or need to reset it, follow these steps:\n        \n        1. Go to the login page and click \"Forgot Password\"\n        2. Enter your email address associated with your account\n        3. Check your email for a password reset link (expires in 24 hours)\n        4. Click the link and create a new password\n        5. Your new password must be at least 12 characters with mixed case and numbers\n        \n        If you don\x27t receive the email within 5 minutes, check your spam folder.\n        Still having issues? Contact support for manual verification.\n        "⟩,
  ⟨"KB-AUTH-002", "Two-Factor Authentication Setup Guide", "https://help.example.com/articles/2fa-setup", "authentication",
   ["2fa", "two-factor", "authentication", "security", "mfa", "authenticator"],
   "\n        Two-factor authentication adds an extra layer of security to your account.\n        \n        To enable 2FA:\n        1. Go to Settings > Security > Two-Factor Authentication\n        2. Choose your preferred method (Authenticator App recommended)\n        3. Scan the QR code with your authenticator app\n        4. Enter the 6-digit code to verify\n        5. Save your backup codes in a secure location\n        \n        Supported authenticator apps: Google Authenticator, Authy, 1Password.\n        "⟩,
  ⟨"KB-AUTH-003", "Account Locked - Troubleshooting", "https://help.example.com/articles/account-locked", "authentication",
   ["locked", "account", "blocked", "access", "denied", "suspended"],
   "\n        Your account may be locked for several reasons:\n        \n        - Too many failed login attempts (5 within 15 minutes)\n        - Suspicious activity detected\n        - Password expired (enterprise accounts)\n        - Admin-initiated lock\n        \n        To unlock your account:\n        1. Wait 15 minutes for automatic unlock (failed login attempts)\n        2. Use the \"Unlock Account\" link in your email\n        3. Contact support with your account ID for manual unlock\n        \n        For enterprise accounts, contact your organization administrator.\n        "⟩,
  ⟨"KB-BILLING-001", "Understanding Your Billing Cycle", "https://help.example.com/articles/billing-cycle", "billing",
   ["billing", "cycle", "payment", "invoice", "subscription", "charge", "renew"],
   "\n        Your billing cycle starts on the day you first subscribed or upgraded.\n        \n        Key billing information:\n        - Pro plans are billed monthly on your subscription date\n        - Enterprise plans are billed annually\n        - Upgrades are prorated for the remaining billing period\n        - Downgrades take effect at the next billing cycle\n        \n        View your billing history: Settings > Billing > Invoice History\n        \n        Payment methods: Credit card, PayPal, Wire transfer (Enterprise only)\n        "⟩,
  ⟨"KB-BILLING-002", "How to Update Payment Information", "https://help.example.com/articles/update-payment", "billing",
   ["payment", "credit card", "update", "billing", "method", "change"],
   "\n        To update your payment method:\n        \n        1. Go to Settings > Billing > Payment Methods\n        2. Click \"Add New Payment Method\"\n        3. Enter your card details\n        4. Set as default payment method\n        5. Optionally remove old payment methods\n        \n        Supported payment methods:\n        - Visa, Mastercard, American Express\n        - PayPal\n        - Wire transfer (Enterprise only)\n        \n        Changes take effect immediately for future charges.\n        "⟩,
  ⟨"KB-BILLING-003", "Requesting a Refund", "https://help.example.com/articles/refund-policy", "billing",
   ["refund", "money back", "cancel", "dispute", "charge", "chargeback"],
   "\n        Our refund policy:\n        \n        - Full refund within 14 days of initial purchase\n        - Prorated refund for annual plans cancelled mid-term\n        - No refunds for monthly plans after the billing date\n        \n        To request a refund:\n        1. Contact support with your account email\n        2. Provide reason for refund request\n        3. Allow 5-7 business days for processing\n        \n        Refunds are processed to the original payment method.\n        "⟩,
  ⟨"KB-OUTAGE-001", "Service Status and Incident Response", "https://help.example.com/articles/service-status", "outage",
   ["outage", "down", "status", "incident", "unavailable", "503", "error"],
   "\n        Check current service status: status.example.com\n        \n        During an outage:\n        - We post updates every 15 minutes on our status page\n        - Subscribe to status updates via email or SMS\n        - Check @ExampleStatus on Twitter for real-time updates\n        \n        If you\x27re experiencing issues not reflected on the status page:\n        1. Clear your browser cache\n        2. Try a different browser or incognito mode\n        3. Check if the issue is region-specific\n        4. Contact support if the issue persists\n        \n        SLA credits are automatically applied for qualifying outages.\n        "⟩,
  ⟨"KB-OUTAGE-002", "Regional Connectivity Issues", "https://help.example.com/articles/regional-issues", "outage",
   ["region", "latency", "slow", "connectivity", "network", "timeout"],
   "\n        If you\x27re experiencing slow performance or connectivity issues:\n        \n        Check your region\x27s status at status.example.com/regions\n        \n        Available regions:\n        - us-east (Virginia)\n        - us-west (Oregon)\n        - eu-west (Ireland)\n        - apac (Singapore)\n        \n        To switch regions:\n        1. Go to Settings > Account > Region\n        2. Select your preferred region\n        3. Allow 5-10 minutes for propagation\n        \n        Contact support if issues persist after region change.\n        "⟩,
  ⟨"KB-API-001", "API Rate Limits and Quotas", "https://help.example.com/articles/api-rate-limits", "api",
   ["api", "rate limit", "quota", "429", "throttle", "exceeded"],
   "\n        API rate limits by plan:\n        \n        - Free: 100 requests/minute\n        - Pro: 1,000 requests/minute\n        - Enterprise: Custom limits (contact sales)\n        \n        When you exceed rate limits, you\x27ll receive a 429 response.\n        The response includes a Retry-After header.\n        \n        To request a rate limit increase:\n        1. Contact support with your use case\n        2. Provide expected request volume\n        3. Enterprise customers can request custom limits\n        \n        Best practices: Implement exponential backoff and caching.\n        "⟩,
  ⟨"KB-FEATURE-001", "Submitting Feature Requests", "https://help.example.com/articles/feature-requests", "product",
   ["feature", "request", "suggestion", "idea", "roadmap", "feedback"],
   "\n        We love hearing your ideas! Here\x27s how to submit feature requests:\n        \n        1. Visit our feedback portal: feedback.example.com\n        2. Search for existing requests (and upvote if found)\n        3. Click \"New Idea\" to submit a new request\n        4. Provide a clear description and use case\n        \n        Our product team reviews all submissions weekly.\n        Popular requests are added to our public roadmap.\n        \n        You\x27ll receive updates when your request status changes.\n        "⟩,
  ⟨"KB-ACCOUNT-001", "Managing Team Members", "https://help.example.com/articles/team-management", "account",
   ["team", "member", "invite", "user", "admin", "permission", "role"],
   "\n        To manage your team (Pro and Enterprise plans):\n        \n        Adding members:\n        1. Go to Settings > Team > Members\n        2. Click \"Invite Member\"\n        3. Enter email and select role\n        4. Member receives invitation email\n        \n        Roles and permissions:\n        - Viewer: Read-only access\n        - Editor: Create and edit content\n        - Admin: Full access including billing\n        - Owner: Cannot be removed, can transfer ownership\n        \n        Enterprise plans have custom role creation available.\n        "⟩,
  ⟨"KB-ACCOUNT-002", "Canceling Your Subscription", "https://help.example.com/articles/cancel-subscription", "account",
   ["cancel", "subscription", "close", "delete", "account", "end"],
   "\n        To cancel your subscription:\n        \n        1. Go to Settings > Billing > Subscription\n        2. Click \"Cancel Subscription\"\n        3. Select your reason (helps us improve)\n        4. Confirm cancellation\n        \n        What happens after cancellation:\n        - Access continues until end of billing period\n        - Data retained for 30 days after expiration\n        - You can reactivate anytime within 30 days\n        - After 30 days, data is permanently deleted\n        \n        Enterprise contracts: Contact your account manager.\n        "⟩,
  ⟨"KB-UI-001", "Dashboard Customization Options", "https://help.example.com/articles/dashboard-customization", "product",
   ["dashboard", "customize", "theme", "dark mode", "layout", "display"],
   "\n        Customize your dashboard experience:\n        \n        Theme options:\n        - Light mode (default)\n        - Dark mode (coming soon!)\n        - System preference sync\n        \n        Layout customization:\n        1. Go to Settings > Display > Layout\n        2. Drag and drop widgets\n        3. Resize panels as needed\n        4. Save as default layout\n        \n        Accessibility options available in Settings > Accessibility.\n        We\x27re actively working on additional theme options.\n        "⟩
]

/-- Embedding of `KnowledgeBaseInput` (pydantic model): query 1–500 chars, max_results
default 5 (range 1–20), optional category filter. -/
structure KnowledgeBaseInput where
  query : String
  max_results : Nat := 5
  category_filter : Option String := Option.none
  deriving DecidableEq, Repr

/-- Pydantic construction of a `KnowledgeBaseInput` from a query alone (as the
rule-based fallback does): `Option.none` models the `ValidationError` raised
when the query violates `min_length=1` / `max_length=500`. -/
def mkKnowledgeBaseInput (query : String) : Option KnowledgeBaseInput :=
  if 1 ≤ query.length ∧ query.length ≤ 500 then some { query := query }
  else Option.none

/-- Embedding of `KnowledgeBaseArticle` (pydantic output model). -/
structure KnowledgeBaseArticle where
  id : String
  title : String
  url : String
  category : String
  content_snippet : String
  relevance_score : ℚ
  deriving DecidableEq, Repr

/-- Embedding of `KnowledgeBaseOutput` (pydantic output model). -/
structure KnowledgeBaseOutput where
  results : List KnowledgeBaseArticle
  total_matches : Nat
  query_processed : String
  deriving DecidableEq, Repr

/-- The deduplicated query term list: Python `set(query.split())` where
`query = input_data.query.lower()`.  A Lean list without duplicates stands in
for the set; `calculate_relevance` folds a commutative sum over it, so the
set's iteration order is immaterial. -/
def kbQueryTerms (input : KnowledgeBaseInput) : List String :=
  (pySplitStr (pyLower input.query)).eraseDups

/-- Embedding of `KnowledgeBaseTool._calculate_relevance(query_terms, article)`: +0.4 per
term in the title, +0.3 per term in any keyword, +0.15 per term in the
content, normalized by `0.85 * len(query_terms)` and clamped at 1.0. -/
def calculate_relevance (query_terms : List String) (a : KBArticle) : ℚ :=
  let title_lower := pyLower a.title
  let content_lower := pyLower a.content
  let keywords_lower := a.keywords.map pyLower
  let score := query_terms.foldl
    (fun s term =>
      s + (if inStr term title_lower then (4/10 : ℚ) else 0)
        + (if keywords_lower.any (fun kw => inStr term kw) then (3/10 : ℚ) else 0)
        + (if inStr term content_lower then (15/100 : ℚ) else 0))
    0
  let max_possible : ℚ := (query_terms.length : ℚ) * (85/100)
  if 0 < max_possible then min (score / max_possible) 1 else score

/-- The category filter gate: `if input_data.category_filter:` is Python
truthiness, so `Option.none` and the empty string both skip filtering. -/
def categoryPasses (filter : Option String) (a : KBArticle) : Bool :=
  match filter with
  | Option.none => true
  | some f => f.isEmpty || pyLower a.category == pyLower f

/-- Stable descending insertion by score (first component): a strictly
greater score moves ahead; ties keep the earlier element first, matching the
stability of Python's `list.sort(key=..., reverse=True)`. -/
def insertDesc (x : ℚ × KBArticle) : List (ℚ × KBArticle) → List (ℚ × KBArticle)
  | [] => [x]
  | y :: ys => if y.1 < x.1 then x :: y :: ys else y :: insertDesc x ys

/-- Stable descending sort by score, modelling
`scored_results.sort(key=lambda x: x[0], reverse=True)`. -/
def sortDesc : List (ℚ × KBArticle) → List (ℚ × KBArticle)
  | [] => []
  | x :: xs => insertDesc x (sortDesc xs)

/-- The scored-and-thresholded candidate list built by the article loop of
`KnowledgeBaseTool._execute`: category filter, relevance score, keep only
scores strictly above 0.1. -/
def kbScored (input : KnowledgeBaseInput) : List (ℚ × KBArticle) :=
  KNOWLEDGE_BASE_ARTICLES.filterMap fun a =>
    if categoryPasses input.category_filter a then
      if (1/10 : ℚ) < calculate_relevance (kbQueryTerms input) a then
        some (calculate_relevance (kbQueryTerms input) a, a)
      else Option.none
    else Option.none

/-- Python `round(q, 2)` modelled over `ℚ`: round to an integer number of
hundredths.  (CPython rounds the underlying binary float half-to-even;
`round` here rounds halves up.  Rounding is only used through its
monotonicity and its fixing of 0 and 1, where the two agree.) -/
def round2 (q : ℚ) : ℚ :=
  (round (q * 100) : ℤ) / 100

/-- Embedding of `KnowledgeBaseTool._execute(input_data)`: score, threshold, sort
descending, truncate to `max_results`, emit articles with a 200-character
snippet and the 2-decimal rounded score; `total_matches` counts every article
passing the threshold before truncation. -/
def kbExecute (input : KnowledgeBaseInput) : KnowledgeBaseOutput :=
  let scored := kbScored input
  let top := (sortDesc scored).take input.max_results
  { results := top.map fun sa =>
      { id := sa.2.id
        title := sa.2.title
        url := sa.2.url
        category := sa.2.category
        content_snippet := (sa.2.content.take 200) ++ "..."
        relevance_score := round2 sa.1 }
    total_matches := scored.length
    query_processed := pyLower input.query }

/-! ## Customer history (`tools/customer_history.py`)

The rule-based fallback calls this tool only to read `account_tier` into a
variable it then never uses (§9 of the spec: a documented dead store); the
lookup itself cannot raise.  Only the email→tier projection of
`MOCK_CUSTOMERS` is embedded. -/

/-- The email→tier projection of `MOCK_CUSTOMERS`. -/
def MOCK_CUSTOMER_TIERS : List (String × String) :=
  [("cto@bigcorp.com", "enterprise"),
   ("mike.johnson@startup.io", "pro"),
   ("emma.dev@techcompany.com", "pro"),
   ("angry.customer@example.com", "pro")]

/-- Embedding of `CustomerHistoryTool._execute` restricted to the `account_tier` field:
catalog tier when the lower-cased email is known, else `"unknown"`. -/
def customerHistoryTier (email : String) : String :=
  match MOCK_CUSTOMER_TIERS.lookup (pyLower email) with
  | some tier => tier
  | Option.none => "unknown"

/-! ## Triage output and orchestrator (`models/triage_output.py`,
`core/agent.py`) -/

/-- Embedding of `ToolCallRecord`, reduced to the fields the verified code paths read (the
`inputs`/`outputs` JSON maps are audit payload only; see the header). -/
structure ToolCallRec where
  tool_name : String
  success : Bool
  deriving DecidableEq, Repr

/-- Embedding of `KnowledgeBaseResult` (nested output model). -/
structure KnowledgeBaseResult where
  id : String
  title : String
  url : String
  relevance_score : ℚ
  snippet : Option String := Option.none
  deriving DecidableEq, Repr

/-- Embedding of `TriageOutput` (pydantic model). -/
structure TriageOutput where
  ticket_id : String
  urgency : UrgencyLevel
  product : Option String
  issue_type : IssueType
  customer_sentiment : CustomerSentiment
  customer_risk_signals : List RiskSignal
  recommended_action : RecommendedAction
  recommended_specialist_queue : SpecialistQueue
  knowledge_base_results : List KnowledgeBaseResult
  suggested_reply : Option String
  tool_calls : List ToolCallRec
  confidence_score : ℚ
  reasoning : Option String
  deriving DecidableEq, Repr

/-- Embedding of `TriageAgent._apply_business_rules(output, ticket)` — the business-rule
overlay applied at the end of `_llm_triage`: urgency override, append missed
risk signals, conditional action replacement, unconditional queue
recomputation. -/
def apply_business_rules (output : TriageOutput) (t : SupportTicket) :
    TriageOutput :=
  let output1 :=
    match calculate_urgency_override t (urgencyValue output.urgency) with
    | some u => { output with urgency := u }
    | Option.none => output
  let detected := detect_risk_signals t
  let signals := detected.foldl
    (fun acc s => if s ∈ acc then acc else acc ++ [s])
    output1.customer_risk_signals
  let output2 := { output1 with customer_risk_signals := signals }
  let has_kb := decide (0 < output2.knowledge_base_results.length)
  let new_action := determine_action output2.urgency output2.customer_sentiment
    output2.issue_type output2.customer_risk_signals t has_kb
  let output3 :=
    if new_action ≠ output2.recommended_action
        ∧ (new_action = .escalate_to_human ∨ new_action = .route_to_specialist) then
      { output2 with recommended_action := new_action }
    else
      output2
  { output3 with
    recommended_specialist_queue := determine_specialist_queue
      output3.issue_type output3.urgency t output3.customer_risk_signals }

/-- Fallback urgency keyword list (`agent.py` line 505). -/
def fallback_urgency_keywords : List String :=
  ["urgent", "critical", "emergency", "down", "asap"]

/-- Fallback negative-sentiment keyword list (`agent.py` line 514). -/
def negative_words : List String :=
  ["frustrated", "angry", "terrible", "worst", "unacceptable", "disappointed"]

/-- Fallback positive-sentiment keyword list (`agent.py` line 515). -/
def positive_words : List String :=
  ["thanks", "great", "love", "amazing", "appreciate"]

/-- The urgency block of `_rule_based_triage`: start at medium, bump to high
on a fallback keyword, then to critical for enterprise + "down", then force
low when the detected issue type is feature_request.  The source's sequence
of conditional reassignments (each later one overriding the earlier) is
encoded as an if-chain testing the later conditions first. -/
def fallback_urgency (t : SupportTicket) (issue_type : IssueType) : UrgencyLevel :=
  if issue_type = .feature_request then UrgencyLevel.low
  else if is_enterprise t && inStr "down" (textLower t) then UrgencyLevel.critical
  else if fallback_urgency_keywords.any (fun kw => inStr kw (textLower t)) then UrgencyLevel.high
  else UrgencyLevel.medium

/-- The sentiment block of `_rule_based_triage`: negative check first,
positive check second, the positive check unconditionally winning — encoded
as an if-chain testing the positive (overriding) check first. -/
def fallback_sentiment (t : SupportTicket) : CustomerSentiment :=
  if positive_words.any (fun w => inStr w (textLower t)) then CustomerSentiment.positive
  else if negative_words.any (fun w => inStr w (textLower t)) then CustomerSentiment.negative
  else CustomerSentiment.neutral

/-- The knowledge-base query `_rule_based_triage` builds: the first four
words of the lower-cased subject, joined by single spaces. -/
def fallback_query (t : SupportTicket) : String :=
  ⟨joinSp ((pySplitL (pyLower t.subject).toList).take 4)⟩

/-- The body of `_rule_based_triage` past the `KnowledgeBaseInput`
construction (the part of the function that cannot raise). -/
def fallback_output (t : SupportTicket) (kb_input : KnowledgeBaseInput) :
    TriageOutput :=
  let kb_output := kbExecute kb_input
  let kb_results := (kb_output.results.take 3).map fun a =>
    { id := a.id, title := a.title, url := a.url,
      relevance_score := a.relevance_score : KnowledgeBaseResult }
  let _customer_tier := customerHistoryTier t.customer_email
  let issue_type := (detect_issue_type_from_keywords t).getD IssueType.other
  let urgency := fallback_urgency t issue_type
  let sentiment := fallback_sentiment t
  let risk_signals := detect_risk_signals t
  let action := determine_action urgency sentiment issue_type risk_signals t
    (decide (0 < kb_results.length))
  let queue := determine_specialist_queue issue_type urgency t risk_signals
  { ticket_id := t.ticket_id
    urgency := urgency
    product := Option.none
    issue_type := issue_type
    customer_sentiment := sentiment
    customer_risk_signals := risk_signals
    recommended_action := action
    recommended_specialist_queue := queue
    knowledge_base_results := kb_results
    suggested_reply := Option.none
    tool_calls := [{ tool_name := "knowledge_base_search", success := true },
                   { tool_name := "customer_history", success := true }]
    confidence_score := 6/10
    reasoning := some "Rule-based triage (LLM unavailable)" }

/-- Embedding of `TriageAgent._rule_based_triage(ticket)`.  `Option.none` models an
exception escaping to the caller: the only statement that can raise outside a
`try` block is the `KnowledgeBaseInput` construction from the first four
lower-cased words of the subject (the two tool `execute` calls sit inside
`try`/`except` and, being pure catalog lookups, cannot fail anyway; the
looked-up customer tier is the source's documented dead store). -/
def rule_based_triage (t : SupportTicket) : Option TriageOutput :=
  match mkKnowledgeBaseInput (fallback_query t) with
  | Option.none => Option.none
  | some kb_input => some (fallback_output t kb_input)

/-! ## Helper lemmas -/

/-- The rule engine's `determine_specialist_queue` only ever returns one of the five queues
`enterprise_success`, `billing`, `infra`, `tier_2`, `none`. -/
theorem determine_specialist_queue_ne_security (issue_type urgency t risk_signals) :
    determine_specialist_queue issue_type urgency t risk_signals ≠ .security := by
  unfold determine_specialist_queue
  repeat' split
  all_goals simp

/-- Numeric rank of an urgency level under the order
low < medium < high < critical. -/
def urgencyRank : UrgencyLevel → Nat
  | .low => 0
  | .medium => 1
  | .high => 2
  | .critical => 3

/-- Inversion of the urgency wire string. -/
theorem urgencyValue_eq_low {u : UrgencyLevel} (h : urgencyValue u = "low") :
    u = .low := by
  cases u <;> simp_all [urgencyValue]

/-- Inversion of the urgency wire string. -/
theorem urgencyValue_eq_medium {u : UrgencyLevel} (h : urgencyValue u = "medium") :
    u = .medium := by
  cases u <;> simp_all [urgencyValue]

/-- The override `calculate_urgency_override` never returns an urgency below the incoming
one: rule 1 returns the top level, rule 2 fires only on incoming low/medium,
rule 3 only on incoming low. -/
theorem calculate_urgency_override_mono (t : SupportTicket) (u v : UrgencyLevel)
    (h : calculate_urgency_override t (urgencyValue u) = some v) :
    urgencyRank u ≤ urgencyRank v := by
  unfold calculate_urgency_override at h
  by_cases h1 : (is_enterprise t
      && outage_indicators.any fun kw => inStr kw (textLower t)) = true
  · rw [if_pos h1] at h
    injection h with h
    subst h
    cases u <;> simp [urgencyRank]
  · rw [if_neg h1] at h
    by_cases h2 : ((CRITICAL_KEYWORDS.any fun kw => inStr kw (textLower t))
        && (urgencyValue u == "low" || urgencyValue u == "medium")) = true
    · rw [if_pos h2] at h
      injection h with h
      subst h
      simp only [Bool.and_eq_true, Bool.or_eq_true, beq_iff_eq] at h2
      rcases h2.2 with hl | hm
      · rw [urgencyValue_eq_low hl]
        simp [urgencyRank]
      · rw [urgencyValue_eq_medium hm]
        simp [urgencyRank]
    · rw [if_neg h2] at h
      by_cases h3 : (is_enterprise t && urgencyValue u == "low") = true
      · rw [if_pos h3] at h
        injection h with h
        subst h
        simp only [Bool.and_eq_true, beq_iff_eq] at h3
        rw [urgencyValue_eq_low h3.2]
        simp [urgencyRank]
      · rw [if_neg h3] at h
        exact absurd h (by simp)

/-- Appending-the-missing-signals fold of `_apply_business_rules`: anything
already in the accumulator, or among the detected signals, is in the
result. -/
theorem foldl_ins_mem (s : RiskSignal) :
    ∀ (detected acc : List RiskSignal), s ∈ acc ∨ s ∈ detected →
      s ∈ detected.foldl (fun acc x => if x ∈ acc then acc else acc ++ [x]) acc := by
  intro detected
  induction detected with
  | nil =>
    intro acc h
    simpa using h.resolve_right (by simp)
  | cons d ds ih =>
    intro acc h
    simp only [List.foldl_cons]
    by_cases hd : d ∈ acc
    · rw [if_pos hd]
      apply ih
      rcases h with h | h
      · exact Or.inl h
      · rcases List.mem_cons.mp h with rfl | h
        · exact Or.inl hd
        · exact Or.inr h
    · rw [if_neg hd]
      apply ih
      rcases h with h | h
      · exact Or.inl (List.mem_append_left _ h)
      · rcases List.mem_cons.mp h with rfl | h
        · exact Or.inl (List.mem_append_right _ (by simp))
        · exact Or.inr h

/-- The signal-append fold changes nothing when every detected signal is
already present. -/
theorem foldl_ins_self :
    ∀ (detected acc : List RiskSignal), (∀ x ∈ detected, x ∈ acc) →
      detected.foldl (fun acc x => if x ∈ acc then acc else acc ++ [x]) acc = acc := by
  intro detected
  induction detected with
  | nil => intro acc _; rfl
  | cons d ds ih =>
    intro acc h
    simp only [List.foldl_cons, if_pos (h d (by simp))]
    exact ih acc fun x hx => h x (by simp [hx])

/-- The urgency the overlay leaves on the output: the override value when the
rule engine produced one, the incoming urgency otherwise. -/
theorem apply_business_rules_urgency (o : TriageOutput) (t : SupportTicket) :
    (apply_business_rules o t).urgency =
      (calculate_urgency_override t (urgencyValue o.urgency)).getD o.urgency := by
  unfold apply_business_rules
  rcases calculate_urgency_override t (urgencyValue o.urgency) with _ | u <;>
    · simp only [Option.getD]
      split <;> rfl

/-! ## Claims -/

/-- C7: for every urgency, sentiment, issue type, ticket and
`has_kb_results` flag, if `legal_threat` is present in the risk-signal list
passed to `determine_action`, the result is `escalate_to_human` (rule 2 of
the action table; rule 1, the only earlier rule, also escalates). -/
theorem C7_legal_threat_always_escalates
    (urgency : UrgencyLevel) (sentiment : CustomerSentiment)
    (issue_type : IssueType) (risk_signals : List RiskSignal)
    (t : SupportTicket) (has_kb_results : Bool)
    (h : RiskSignal.legal_threat ∈ risk_signals) :
    determine_action urgency sentiment issue_type risk_signals t has_kb_results
      = .escalate_to_human := by
  simp [determine_action, h]

/-- Witness for C7 at a concrete call. -/
theorem C7_witness :
    determine_action .low .neutral .other [RiskSignal.legal_threat]
      { ticket_id := "T", subject := "s", body := "b", customer_email := "e@x.io" }
      false = .escalate_to_human :=
  C7_legal_threat_always_escalates _ _ _ _ _ _ (by decide)

/-- C6: the business-rule overlay never changes the recommended action to
`auto_respond` — if the overlaid output recommends `auto_respond`, the input
already did (the replacement step only installs `escalate_to_human` or
`route_to_specialist`), so an output entering with `escalate_to_human` or
`route_to_specialist` never leaves with `auto_respond`. -/
theorem C6_overlay_never_downgrades_to_auto_respond
    (o : TriageOutput) (t : SupportTicket)
    (h : (apply_business_rules o t).recommended_action = .auto_respond) :
    o.recommended_action = .auto_respond := by
  unfold apply_business_rules at h
  rcases hov : calculate_urgency_override t (urgencyValue o.urgency) with _ | u <;>
    rw [hov] at h <;>
    simp only at h <;>
    split at h
  case _ hc =>
    rcases hc.2 with h1 | h1 <;> simp [h1] at h
  case _ => exact h
  case _ hc =>
    rcases hc.2 with h1 | h1 <;> simp [h1] at h
  case _ => exact h

/-- A quiet free-tier ticket whose text contains no rule-engine keyword and
whose subject matches no knowledge-base article. -/
def calmTicket : SupportTicket :=
  { ticket_id := "T0", subject := "zzzz", body := "zzzz",
    customer_email := "a@b.c", customer_tier := "free" }

/-- The output `_rule_based_triage` produces for `calmTicket`. -/
def calmFallbackOutput : TriageOutput :=
  { ticket_id := "T0"
    urgency := .medium
    product := Option.none
    issue_type := .other
    customer_sentiment := .neutral
    customer_risk_signals := []
    recommended_action := .route_to_specialist
    recommended_specialist_queue := .none
    knowledge_base_results := []
    suggested_reply := Option.none
    tool_calls := [{ tool_name := "knowledge_base_search", success := true },
                   { tool_name := "customer_history", success := true }]
    confidence_score := 6/10
    reasoning := some "Rule-based triage (LLM unavailable)" }

/-- A candidate LLM output recommending `auto_respond`, with one
knowledge-base hit. -/
def autoRespondOutput : TriageOutput :=
  { ticket_id := "T0"
    urgency := .low
    product := Option.none
    issue_type := .other
    customer_sentiment := .neutral
    customer_risk_signals := []
    recommended_action := .auto_respond
    recommended_specialist_queue := .none
    knowledge_base_results := [{ id := "KB-X", title := "x", url := "u",
                                 relevance_score := 1/2 }]
    suggested_reply := Option.none
    tool_calls := []
    confidence_score := 8/10
    reasoning := Option.none }

/-- Witness for C6: on `calmTicket` the overlay leaves `autoRespondOutput`'s
`auto_respond` action in place, and the theorem recovers that the input's
action was `auto_respond`. -/
theorem C6_witness : autoRespondOutput.recommended_action = .auto_respond :=
  C6_overlay_never_downgrades_to_auto_respond autoRespondOutput calmTicket
    (by with_unfolding_all decide)

/-- C9: no output ever carries the `security` queue: the rule engine's
`determine_specialist_queue` can only return `enterprise_success`, `billing`,
`infra`, `tier_2` or `none`; the overlay's unconditional final queue
recomputation (LLM path) and the rule-based fallback both take their queue
from it. -/
theorem C9_security_queue_never_produced :
    (∀ issue_type urgency t risk_signals,
        determine_specialist_queue issue_type urgency t risk_signals ≠ .security) ∧
    (∀ (o : TriageOutput) (t : SupportTicket),
        (apply_business_rules o t).recommended_specialist_queue ≠ .security) ∧
    (∀ (t : SupportTicket) (o : TriageOutput), rule_based_triage t = some o →
        o.recommended_specialist_queue ≠ .security) := by
  refine ⟨determine_specialist_queue_ne_security, ?_, ?_⟩
  · intro o t
    exact determine_specialist_queue_ne_security _ _ _ _
  · intro t o h
    unfold rule_based_triage at h
    split at h
    · exact absurd h (by simp)
    · injection h with h
      subst h
      exact determine_specialist_queue_ne_security _ _ _ _

set_option maxRecDepth 100000 in
/-- Witness for C9 on the concrete fallback run for `calmTicket`. -/
theorem C9_witness : calmFallbackOutput.recommended_specialist_queue ≠ .security :=
  C9_security_queue_never_produced.2.2 calmTicket calmFallbackOutput
    (by with_unfolding_all decide)

/-- C10: `calculate_urgency_override` is monotone non-decreasing w.r.t.
low < medium < high < critical — whenever it returns an override, the
override ranks at least as high as the incoming urgency (it returns critical
unconditionally, high only for incoming low or medium, medium only for
incoming low) — and therefore the business-rule overlay never lowers an
output's urgency. -/
theorem C10_urgency_override_monotone :
    (∀ (t : SupportTicket) (u v : UrgencyLevel),
        calculate_urgency_override t (urgencyValue u) = some v →
        urgencyRank u ≤ urgencyRank v) ∧
    (∀ (o : TriageOutput) (t : SupportTicket),
        urgencyRank o.urgency ≤ urgencyRank (apply_business_rules o t).urgency) := by
  refine ⟨calculate_urgency_override_mono, ?_⟩
  intro o t
  rw [apply_business_rules_urgency]
  rcases hov : calculate_urgency_override t (urgencyValue o.urgency) with _ | u
  · simp
  · simpa using calculate_urgency_override_mono t o.urgency u hov

/-- An enterprise ticket whose body mentions "503" but not "down" and no
fallback urgency keyword. -/
def error503Ticket : SupportTicket :=
  { ticket_id := "T1", subject := "zzzz", body := "503",
    customer_email := "a@b.c", customer_tier := "enterprise" }

/-- Witness for C10 at a concrete override: `error503Ticket` overrides an
incoming medium urgency to critical, and the rank inequality holds there. -/
theorem C10_witness : urgencyRank .medium ≤ urgencyRank .critical :=
  C10_urgency_override_monotone.1 error503Ticket .medium .critical
    (by with_unfolding_all decide)

/-- A text containing "down" always trips the outage keyword family, so
keyword issue-type detection lands on billing or outage — never further down
the chain. -/
theorem detect_down_billing_or_outage (t : SupportTicket)
    (hd : inStr "down" (textLower t) = true) :
    detect_issue_type_from_keywords t = some .billing ∨
    detect_issue_type_from_keywords t = some .outage := by
  have ho : outage_keywords.any (fun kw => inStr kw (textLower t)) = true :=
    List.any_eq_true.mpr ⟨"down", by simp [outage_keywords], hd⟩
  unfold detect_issue_type_from_keywords
  by_cases hb : billing_keywords.any (fun kw => inStr kw (textLower t)) = true
  · rw [if_pos hb]
    exact Or.inl rfl
  · rw [if_neg hb, if_pos ho]
    exact Or.inr rfl

/-- For an enterprise ticket whose text contains "down", the fallback urgency
is critical: the enterprise-"down" reassignment fires and the final
feature-request reassignment cannot (the issue type is billing or outage). -/
theorem fallback_urgency_enterprise_down (t : SupportTicket)
    (he : is_enterprise t = true) (hd : inStr "down" (textLower t) = true) :
    fallback_urgency t ((detect_issue_type_from_keywords t).getD .other)
      = .critical := by
  have hfr : (detect_issue_type_from_keywords t).getD .other ≠ .feature_request := by
    rcases detect_down_billing_or_outage t hd with h | h <;> simp [h]
  unfold fallback_urgency
  rw [if_neg hfr, if_pos (by simp [he, hd])]

/-- Enterprise tickets always carry the `high_value_account` risk signal. -/
theorem hva_mem_detect_risk_signals (t : SupportTicket)
    (he : is_enterprise t = true) :
    RiskSignal.high_value_account ∈ detect_risk_signals t := by
  unfold detect_risk_signals
  rw [if_pos he]
  simp

/-- What the business-rule overlay guarantees when the urgency override
resolves to critical on an enterprise ticket: critical urgency, escalation,
the enterprise-success queue, and every detected risk signal present. -/
theorem apply_business_rules_critical (cand : TriageOutput) (t : SupportTicket)
    (hov : calculate_urgency_override t (urgencyValue cand.urgency)
      = some .critical)
    (he : is_enterprise t = true) :
    (apply_business_rules cand t).urgency = .critical ∧
    (apply_business_rules cand t).recommended_action = .escalate_to_human ∧
    (apply_business_rules cand t).recommended_specialist_queue
      = .enterprise_success ∧
    ∀ s ∈ detect_risk_signals t,
      s ∈ (apply_business_rules cand t).customer_risk_signals := by
  simp only [apply_business_rules, hov]
  refine ⟨?_, ?_, ?_, ?_⟩
  · split <;> rfl
  · split
    · simp [determine_action]
    · rename_i hc
      simp [determine_action] at hc
      exact hc.symm
  · split <;> simp [determine_specialist_queue, he]
  · split <;> exact fun s hs => foldl_ins_mem s _ _ (Or.inr hs)

/-- The guaranteed shape of a triage result for an enterprise outage ticket
(spec §8 property 3). -/
def enterpriseOutageProps (o : TriageOutput) : Prop :=
  (o.urgency = .critical ∨ o.urgency = .high) ∧
  o.recommended_action = .escalate_to_human ∧
  o.recommended_specialist_queue = .enterprise_success ∧
  RiskSignal.high_value_account ∈ o.customer_risk_signals

/-- C3: for every enterprise ticket whose combined subject+body text contains
both "down" and "503", the triage result — whether the rule-based fallback
output, or the business-rule overlay applied to any LLM candidate output —
has urgency in {critical, high}, action `escalate_to_human`, queue
`enterprise_success`, and `high_value_account` among its risk signals. -/
theorem C3_enterprise_outage_escalates (t : SupportTicket)
    (he : is_enterprise t = true)
    (hd : inStr "down" (textLower t) = true)
    (_h5 : inStr "503" (textLower t) = true) :
    (∀ o, rule_based_triage t = some o → enterpriseOutageProps o) ∧
    (∀ cand : TriageOutput, enterpriseOutageProps (apply_business_rules cand t)) := by
  have hcrit := fallback_urgency_enterprise_down t he hd
  constructor
  · intro o h
    unfold rule_based_triage at h
    split at h
    · exact absurd h (by simp)
    · injection h with h
      subst h
      refine ⟨Or.inl hcrit, ?_, ?_, ?_⟩
      · show determine_action (fallback_urgency t _) _ _ _ _ _ = _
        rw [hcrit]
        simp [determine_action]
      · show determine_specialist_queue _ (fallback_urgency t _) _ _ = _
        rw [hcrit]
        simp [determine_specialist_queue, he]
      · exact hva_mem_detect_risk_signals t he
  · intro cand
    have hov : calculate_urgency_override t (urgencyValue cand.urgency)
        = some .critical := by
      unfold calculate_urgency_override
      rw [if_pos]
      simp only [Bool.and_eq_true, he, true_and]
      exact List.any_eq_true.mpr ⟨"down", by simp [outage_indicators], hd⟩
    obtain ⟨h1, h2, h3, h4⟩ := apply_business_rules_critical cand t hov he
    exact ⟨Or.inl h1, h2, h3, h4 _ (hva_mem_detect_risk_signals t he)⟩

/-- An enterprise ticket whose body contains both "down" and "503". -/
def enterpriseDownTicket : SupportTicket :=
  { ticket_id := "T3", subject := "zzzz", body := "down 503",
    customer_email := "a@b.c", customer_tier := "enterprise" }

set_option maxRecDepth 100000 in
/-- Witness for C3: the overlay forces the enterprise-outage shape onto a
concrete low-urgency candidate output for `enterpriseDownTicket`. -/
theorem C3_witness :
    enterpriseOutageProps (apply_business_rules autoRespondOutput enterpriseDownTicket) :=
  (C3_enterprise_outage_escalates enterpriseDownTicket (by decide) (by decide)
    (by decide)).2 autoRespondOutput

/-- C4 counterexample: no ticket can simultaneously trigger the
enterprise-"down" critical rule and have detected issue type
`feature_request`, because "down" in the text makes the keyword detector
return billing or outage before the feature-request family is ever
examined.  The claimed ticket therefore does not exist. -/
theorem C4_counterexample :
    ¬ ∃ t : SupportTicket, is_enterprise t = true ∧
      inStr "down" (textLower t) = true ∧
      detect_issue_type_from_keywords t = some .feature_request := by
  rintro ⟨t, -, hd, hi⟩
  rcases detect_down_billing_or_outage t hd with h | h <;> simp [h] at hi

/-- C4 (amended): the final feature-request check runs last and
unconditionally, but it can never override an enterprise-critical
determination — for every enterprise ticket whose text contains "down", the
detected issue type is billing or outage (never feature_request) and the
fallback urgency, both as computed and as returned, is critical. -/
theorem C4_feature_request_never_overrides_enterprise_critical
    (t : SupportTicket) (he : is_enterprise t = true)
    (hd : inStr "down" (textLower t) = true) :
    fallback_urgency t ((detect_issue_type_from_keywords t).getD .other)
      = .critical ∧
    ∀ o, rule_based_triage t = some o → o.urgency = .critical := by
  have hcrit := fallback_urgency_enterprise_down t he hd
  refine ⟨hcrit, ?_⟩
  intro o h
  unfold rule_based_triage at h
  split at h
  · exact absurd h (by simp)
  · injection h with h
    subst h
    exact hcrit

/-- Witness for C4 (amended) on `enterpriseDownTicket`. -/
theorem C4_witness :
    fallback_urgency enterpriseDownTicket
      ((detect_issue_type_from_keywords enterpriseDownTicket).getD .other)
      = .critical :=
  (C4_feature_request_never_overrides_enterprise_critical enterpriseDownTicket
    (by decide) (by decide)).1

/-- C5: the rule-based fallback's sentiment — the positive-keyword check runs
after the negative-keyword check and overwrites it unconditionally, so any
positive keyword forces `positive` even alongside negative keywords; negative
keywords without a positive keyword give `negative`; neither gives
`neutral`. -/
theorem C5_fallback_sentiment_positive_wins (t : SupportTicket) :
    (∀ o, rule_based_triage t = some o →
        o.customer_sentiment = fallback_sentiment t) ∧
    (positive_words.any (fun w => inStr w (textLower t)) = true →
        fallback_sentiment t = .positive) ∧
    (negative_words.any (fun w => inStr w (textLower t)) = true →
        positive_words.any (fun w => inStr w (textLower t)) = false →
        fallback_sentiment t = .negative) ∧
    (negative_words.any (fun w => inStr w (textLower t)) = false →
        positive_words.any (fun w => inStr w (textLower t)) = false →
        fallback_sentiment t = .neutral) := by
  refine ⟨?_, ?_, ?_, ?_⟩
  · intro o h
    unfold rule_based_triage at h
    split at h
    · exact absurd h (by simp)
    · injection h with h
      subst h
      rfl
  · intro hp
    simp [fallback_sentiment, hp]
  · intro hn hp
    simp [fallback_sentiment, hn, hp]
  · intro hn hp
    simp [fallback_sentiment, hn, hp]

/-- A ticket containing both a negative ("angry") and a positive ("thanks")
trigger word. -/
def mixedSentimentTicket : SupportTicket :=
  { ticket_id := "T5", subject := "zzzz", body := "angry thanks",
    customer_email := "a@b.c", customer_tier := "free" }

/-- A ticket containing a negative trigger word ("angry") and no positive
one. -/
def negativeSentimentTicket : SupportTicket :=
  { ticket_id := "T6", subject := "zzzz", body := "angry",
    customer_email := "a@b.c", customer_tier := "free" }

/-- Witness for C5: all three sentiment cases at concrete tickets — a
negative+positive mix classifies positive, negative alone classifies
negative, neither classifies neutral. -/
theorem C5_witness :
    fallback_sentiment mixedSentimentTicket = .positive ∧
    fallback_sentiment negativeSentimentTicket = .negative ∧
    fallback_sentiment calmTicket = .neutral :=
  ⟨(C5_fallback_sentiment_positive_wins mixedSentimentTicket).2.1 (by decide),
   (C5_fallback_sentiment_positive_wins negativeSentimentTicket).2.2.1
     (by decide) (by decide),
   (C5_fallback_sentiment_positive_wins calmTicket).2.2.2 (by decide) (by decide)⟩

/-- The business-rule overlay is the identity on outputs that already agree
with the rule engine: no urgency override (or an override equal to the
current urgency), risk signals already containing everything detected, and
action/queue already equal to the rule engine's recomputation. -/
theorem apply_business_rules_fixpoint (o : TriageOutput) (t : SupportTicket)
    (hov : calculate_urgency_override t (urgencyValue o.urgency) = Option.none ∨
        calculate_urgency_override t (urgencyValue o.urgency) = some o.urgency)
    (hsig : ∀ s ∈ detect_risk_signals t, s ∈ o.customer_risk_signals)
    (hact : determine_action o.urgency o.customer_sentiment o.issue_type
        o.customer_risk_signals t (decide (0 < o.knowledge_base_results.length))
        = o.recommended_action)
    (hq : determine_specialist_queue o.issue_type o.urgency t
        o.customer_risk_signals = o.recommended_specialist_queue) :
    apply_business_rules o t = o := by
  have hsig' := foldl_ins_self (detect_risk_signals t) o.customer_risk_signals hsig
  rcases hov with hov | hov <;>
    · simp only [apply_business_rules, hov, hsig', hact]
      rw [if_neg (by simp)]
      simp [hq]

set_option maxRecDepth 1000000 in
/-- C1 counterexample: the rule-based fallback path does not apply the
business-rule overlay before returning, and its output is not in general a
fixpoint of the overlay: for `error503Ticket` (enterprise, text mentioning
"503" but not "down"), the fallback returns urgency medium / queue infra,
while applying the overlay to that output would raise the urgency to
critical, escalate, and reroute to enterprise_success. -/
theorem C1_counterexample :
    ¬ ((rule_based_triage error503Ticket).map
        (fun o => apply_business_rules o error503Ticket)
      = rule_based_triage error503Ticket) := by
  with_unfolding_all decide

/-- C1 (amended): the business-rule overlay is applied before return only on
the LLM path; `triage()` returns the rule-based fallback output directly,
without the overlay.  The fallback output is a fixpoint of the overlay
exactly when the rule engine's urgency override is absent (or coincides with
the fallback urgency) — the remaining overlay steps (risk signals, action,
queue) always agree with the fallback, which already used the rule engine. -/
theorem C1_fallback_returned_without_overlay (t : SupportTicket)
    (o : TriageOutput) (h : rule_based_triage t = some o)
    (hov : calculate_urgency_override t (urgencyValue o.urgency) = Option.none ∨
        calculate_urgency_override t (urgencyValue o.urgency) = some o.urgency) :
    apply_business_rules o t = o := by
  unfold rule_based_triage at h
  split at h
  · exact absurd h (by simp)
  · injection h with h
    subst h
    exact apply_business_rules_fixpoint _ t hov (fun s hs => hs) rfl rfl

set_option maxRecDepth 1000000 in
/-- Witness for C1 (amended): on `calmTicket` no urgency override applies and
the fallback output is indeed an overlay fixpoint. -/
theorem C1_witness :
    apply_business_rules calmFallbackOutput calmTicket = calmFallbackOutput :=
  C1_fallback_returned_without_overlay calmTicket calmFallbackOutput
    (by with_unfolding_all decide) (Or.inl (by with_unfolding_all decide))

/-- Joining one more word costs at most its length plus one separator. -/
theorem joinSp_cons_le (w : List Char) (ws : List (List Char)) :
    (joinSp (w :: ws)).length ≤ w.length + 1 + (joinSp ws).length := by
  cases ws with
  | nil => simp [joinSp]
  | cons x xs =>
    simp [joinSp]
    omega

/-- Joining a word list starts with its first word. -/
theorem joinSp_cons_ge (w : List Char) (ws : List (List Char)) :
    w.length ≤ (joinSp (w :: ws)).length := by
  cases ws with
  | nil => simp [joinSp]
  | cons x xs =>
    simp [joinSp]

/-- Splitting then rejoining with single spaces never exceeds the original
length (whitespace runs only shrink). -/
theorem splitWsAux_join_le :
    ∀ (l acc : List Char), (joinSp (splitWsAux l acc)).length ≤ l.length + acc.length := by
  intro l
  induction l with
  | nil =>
    intro acc
    unfold splitWsAux
    by_cases ha : acc.isEmpty
    · rw [if_pos ha]
      simp [joinSp]
    · rw [if_neg ha]
      simp [joinSp]
  | cons c cs ih =>
    intro acc
    unfold splitWsAux
    by_cases hw : c.isWhitespace
    · rw [if_pos hw]
      by_cases ha : acc.isEmpty
      · rw [if_pos ha]
        have := ih []
        simp only [List.length_nil, Nat.add_zero] at this
        simp only [List.length_cons]
        omega
      · rw [if_neg ha]
        have h1 := joinSp_cons_le acc.reverse (splitWsAux cs [])
        have h2 := ih []
        simp only [List.length_reverse, List.length_nil, Nat.add_zero] at h1 h2
        simp only [List.length_cons]
        omega
    · rw [if_neg hw]
      have := ih (c :: acc)
      simp only [List.length_cons] at this ⊢
      omega

/-- Joining a prefix of the word list is no longer than joining all of it. -/
theorem joinSp_take_le :
    ∀ (ws : List (List Char)) (n : Nat), (joinSp (ws.take n)).length ≤ (joinSp ws).length := by
  intro ws
  induction ws with
  | nil =>
    intro n
    simp
  | cons w ws ih =>
    intro n
    cases n with
    | zero => simp [joinSp]
    | succ m =>
      cases ws with
      | nil => simp
      | cons x xs =>
        cases m with
        | zero =>
          simp only [List.take_succ_cons, List.take_zero, joinSp]
          simp [joinSp]
        | succ k =>
          have := ih (k + 1)
          simp only [List.take_succ_cons, joinSp] at this ⊢
          simp only [List.length_append, List.length_cons] at this ⊢
          omega

/-- Every word produced by the splitter is nonempty. -/
theorem splitWsAux_mem_ne_nil :
    ∀ (l acc w : List Char), w ∈ splitWsAux l acc → w ≠ [] := by
  intro l
  induction l with
  | nil =>
    intro acc w hw
    unfold splitWsAux at hw
    by_cases ha : acc.isEmpty
    · rw [if_pos ha] at hw
      simp at hw
    · rw [if_neg ha] at hw
      simp only [List.mem_singleton] at hw
      subst hw
      have hne : acc ≠ [] := by simpa [List.isEmpty_iff] using ha
      simpa using hne
  | cons c cs ih =>
    intro acc w hw
    unfold splitWsAux at hw
    by_cases hws : c.isWhitespace
    · rw [if_pos hws] at hw
      by_cases ha : acc.isEmpty
      · rw [if_pos ha] at hw
        exact ih [] w hw
      · rw [if_neg ha] at hw
        rcases List.mem_cons.mp hw with rfl | hw
        · have hne : acc ≠ [] := by simpa [List.isEmpty_iff] using ha
          simpa using hne
        · exact ih [] w hw
    · rw [if_neg hws] at hw
      exact ih (c :: acc) w hw

/-- Bounds on the fallback's knowledge-base query: it is no longer than the
subject, and nonempty whenever the lower-cased subject splits into at least
one word. -/
theorem fallback_query_length (t : SupportTicket) :
    (fallback_query t).length ≤ t.subject.length ∧
    (pySplitL (pyLower t.subject).toList ≠ [] → 1 ≤ (fallback_query t).length) := by
  have hlow : (pyLower t.subject).toList.length = t.subject.length := by
    show (t.subject.toList.map Char.toLower).length = t.subject.length
    rw [List.length_map]
    rfl
  constructor
  · show (joinSp ((pySplitL (pyLower t.subject).toList).take 4)).length ≤ _
    calc (joinSp ((pySplitL (pyLower t.subject).toList).take 4)).length
        ≤ (joinSp (pySplitL (pyLower t.subject).toList)).length :=
          joinSp_take_le _ 4
      _ ≤ (pyLower t.subject).toList.length + 0 := splitWsAux_join_le _ []
      _ = t.subject.length := by rw [Nat.add_zero, hlow]
  · intro hne
    show 1 ≤ (joinSp ((pySplitL (pyLower t.subject).toList).take 4)).length
    rcases hw : pySplitL (pyLower t.subject).toList with _ | ⟨w, ws⟩
    · exact absurd hw hne
    · have hwne : w ≠ [] :=
        splitWsAux_mem_ne_nil _ [] w (by rw [show splitWsAux (pyLower t.subject).toList [] = w :: ws from hw]; simp)
      have h1 : 1 ≤ w.length := by
        cases w with
        | nil => exact absurd rfl hwne
        | cons a as => simp
      calc 1 ≤ w.length := h1
        _ ≤ (joinSp (w :: ws.take 3)).length := joinSp_cons_ge _ _
        _ = (joinSp ((w :: ws).take 4)).length := by simp [List.take_succ_cons]

/-- A valid ticket (subject of length 1, within the 1–500 construction
bounds) whose subject is a single space, so the lower-cased subject splits
into zero words. -/
def whitespaceSubjectTicket : SupportTicket :=
  { ticket_id := "T2", subject := " ", body := "x",
    customer_email := "a@b.c", customer_tier := "free" }

/-- C2 counterexample: `whitespaceSubjectTicket` satisfies the Ticket
construction constraints (subject length 1 ∈ [1,500]), yet the rule-based
fallback raises — the empty knowledge-base query violates the
`KnowledgeBaseInput` minimum length, and that construction happens outside
any exception handler, so `triage()` propagates the error. -/
theorem C2_counterexample :
    rule_based_triage whitespaceSubjectTicket = Option.none ∧
    1 ≤ whitespaceSubjectTicket.subject.length ∧
    whitespaceSubjectTicket.subject.length ≤ 500 := by
  decide

/-- C2 (amended): the rule-based fallback returns a well-formed output —
never raises — for every ticket within the construction bounds whose
lower-cased subject contains at least one whitespace-delimited word; with a
blank (all-whitespace) subject the knowledge-base input construction
raises. -/
theorem C2_fallback_total_unless_blank_subject (t : SupportTicket)
    (hlen : t.subject.length ≤ 500)
    (hw : pySplitL (pyLower t.subject).toList ≠ []) :
    (rule_based_triage t).isSome = true := by
  obtain ⟨hle, hge⟩ := fallback_query_length t
  have hmk : mkKnowledgeBaseInput (fallback_query t)
      = some { query := fallback_query t } := by
    unfold mkKnowledgeBaseInput
    rw [if_pos ⟨hge hw, le_trans hle hlen⟩]
  unfold rule_based_triage
  rw [hmk]
  rfl

/-- Witness for C2 (amended): the fallback succeeds on `calmTicket`. -/
theorem C2_witness : (rule_based_triage calmTicket).isSome = true :=
  C2_fallback_total_unless_blank_subject calmTicket (by decide) (by decide)

/-- The scoring fold of `_calculate_relevance` only ever adds non-negative
increments. -/
theorem relevance_foldl_ge (title_lower content_lower : String)
    (keywords_lower : List String) :
    ∀ (terms : List String) (s : ℚ),
      s ≤ terms.foldl
        (fun s term =>
          s + (if inStr term title_lower then (4/10 : ℚ) else 0)
            + (if keywords_lower.any (fun kw => inStr term kw) then (3/10 : ℚ) else 0)
            + (if inStr term content_lower then (15/100 : ℚ) else 0))
        s := by
  intro terms
  induction terms with
  | nil =>
    intro s
    simp
  | cons term rest ih =>
    intro s
    simp only [List.foldl_cons]
    refine le_trans ?_ (ih _)
    have h1 : (0:ℚ) ≤ if inStr term title_lower then (4/10 : ℚ) else 0 := by
      split <;> norm_num
    have h2 : (0:ℚ) ≤ if keywords_lower.any (fun kw => inStr term kw)
        then (3/10 : ℚ) else 0 := by
      split <;> norm_num
    have h3 : (0:ℚ) ≤ if inStr term content_lower then (15/100 : ℚ) else 0 := by
      split <;> norm_num
    linarith

/-- The relevance score always lies in [0, 1]: with at least one query term
it is clamped through `min (score / max) 1` with numerator and denominator
non-negative; with no query terms it is the empty sum 0. -/
theorem calculate_relevance_bounds (terms : List String) (a : KBArticle) :
    0 ≤ calculate_relevance terms a ∧ calculate_relevance terms a ≤ 1 := by
  unfold calculate_relevance
  have hscore := relevance_foldl_ge (pyLower a.title) (pyLower a.content)
    (a.keywords.map pyLower) terms 0
  by_cases hpos : (0:ℚ) < (terms.length : ℚ) * (85/100)
  · rw [if_pos hpos]
    refine ⟨le_min (div_nonneg hscore (le_of_lt hpos)) (by norm_num), min_le_right _ _⟩
  · rw [if_neg hpos]
    have hlen : terms.length = 0 := by
      by_contra hne
      have h1 : 0 < terms.length := Nat.pos_of_ne_zero hne
      have h2 : (0:ℚ) < (terms.length : ℚ) := by exact_mod_cast h1
      exact hpos (mul_pos h2 (by norm_num))
    have ht : terms = [] := List.length_eq_zero.mp hlen
    subst ht
    norm_num

/-- Rational rounding to hundredths is monotone. -/
theorem round2_mono {q q' : ℚ} (h : q ≤ q') : round2 q ≤ round2 q' := by
  unfold round2
  have hr : round (q * 100) ≤ round (q' * 100) := by
    rw [round_eq, round_eq]
    exact Int.floor_mono (by linarith)
  have : ((round (q * 100) : ℤ) : ℚ) ≤ ((round (q' * 100) : ℤ) : ℚ) := by
    exact_mod_cast hr
  linarith

/-- Rounding to hundredths keeps a value of [0, 1] inside [0, 1]. -/
theorem round2_bounds {q : ℚ} (h0 : 0 ≤ q) (h1 : q ≤ 1) :
    0 ≤ round2 q ∧ round2 q ≤ 1 := by
  have hlo : round2 0 ≤ round2 q := round2_mono h0
  have hhi : round2 q ≤ round2 1 := round2_mono h1
  have e0 : round2 0 = 0 := by
    unfold round2
    norm_num
  have e1 : round2 1 = 1 := by
    unfold round2
    norm_num
  rw [e0] at hlo
  rw [e1] at hhi
  exact ⟨hlo, hhi⟩

/-- The predicate deciding whether `_execute` keeps an article: it passes the
category filter and scores strictly above the 0.1 threshold. -/
def kbKeep (input : KnowledgeBaseInput) (a : KBArticle) : Bool :=
  categoryPasses input.category_filter a &&
    decide ((1/10 : ℚ) < calculate_relevance (kbQueryTerms input) a)

/-- No lexical overlap: no query term occurs in any catalog article's
title, keywords or content (all lower-cased, substring containment — exactly
the occurrences `_calculate_relevance` scores). -/
def kbNoOverlap (input : KnowledgeBaseInput) : Bool :=
  (kbQueryTerms input).all fun term =>
    KNOWLEDGE_BASE_ARTICLES.all fun a =>
      !(inStr term (pyLower a.title))
      && !((a.keywords.map pyLower).any fun kw => inStr term kw)
      && !(inStr term (pyLower a.content))

/-- Inversion for membership in the scored candidate list. -/
theorem kbScored_mem {input : KnowledgeBaseInput} {s : ℚ} {a : KBArticle}
    (h : (s, a) ∈ kbScored input) :
    a ∈ KNOWLEDGE_BASE_ARTICLES ∧
    s = calculate_relevance (kbQueryTerms input) a ∧ (1/10 : ℚ) < s := by
  unfold kbScored at h
  rcases List.mem_filterMap.mp h with ⟨a', ha', hf⟩
  split at hf
  · split at hf
    · rename_i hlt
      injection hf with hf
      injection hf with h1 h2
      subst h2
      subst h1
      exact ⟨ha', rfl, hlt⟩
    · exact absurd hf (by simp)
  · exact absurd hf (by simp)

/-- The scored list counts exactly the articles passing `kbKeep`. -/
theorem kbScored_length (input : KnowledgeBaseInput) :
    (kbScored input).length
      = (KNOWLEDGE_BASE_ARTICLES.filter (kbKeep input)).length := by
  unfold kbScored
  induction KNOWLEDGE_BASE_ARTICLES with
  | nil => rfl
  | cons a l ih =>
    by_cases hc : categoryPasses input.category_filter a = true
    · by_cases hlt : (1/10 : ℚ) < calculate_relevance (kbQueryTerms input) a
      · have hk : kbKeep input a = true := by
          simp only [kbKeep, hc, Bool.true_and]
          exact decide_eq_true hlt
        have hlt' : (10:ℚ)⁻¹ < calculate_relevance (kbQueryTerms input) a := by
          rwa [one_div] at hlt
        simp [List.filterMap_cons, List.filter_cons, hc, hlt', hk]
        simpa using ih
      · have hk : kbKeep input a = false := by
          simp only [kbKeep, hc, Bool.true_and]
          exact decide_eq_false hlt
        have hlt' : ¬ (10:ℚ)⁻¹ < calculate_relevance (kbQueryTerms input) a := by
          rwa [one_div] at hlt
        simp [List.filterMap_cons, List.filter_cons, hc, hlt', hk]
        simpa using ih
    · have hcf : categoryPasses input.category_filter a = false := by
        simpa using hc
      have hk : kbKeep input a = false := by simp [kbKeep, hcf]
      simp [List.filterMap_cons, List.filter_cons, hcf, hk]
      simpa using ih

/-- Membership through stable descending insertion. -/
theorem mem_insertDesc {x y : ℚ × KBArticle} :
    ∀ {l : List (ℚ × KBArticle)}, x ∈ insertDesc y l ↔ x = y ∨ x ∈ l := by
  intro l
  induction l with
  | nil => simp [insertDesc]
  | cons z zs ih =>
    simp only [insertDesc]
    split
    · simp [List.mem_cons]
    · simp only [List.mem_cons, ih]
      tauto

/-- Membership through the stable descending sort. -/
theorem mem_sortDesc {x : ℚ × KBArticle} :
    ∀ {l : List (ℚ × KBArticle)}, x ∈ sortDesc l ↔ x ∈ l := by
  intro l
  induction l with
  | nil => simp [sortDesc]
  | cons z zs ih =>
    simp only [sortDesc, mem_insertDesc, List.mem_cons, ih]

/-- Insertion preserves descending pairwise order. -/
theorem insertDesc_pairwise {x : ℚ × KBArticle} :
    ∀ {l : List (ℚ × KBArticle)},
      l.Pairwise (fun a b => b.1 ≤ a.1) →
      (insertDesc x l).Pairwise (fun a b => b.1 ≤ a.1) := by
  intro l
  induction l with
  | nil =>
    intro _
    simp [insertDesc]
  | cons y ys ih =>
    intro hp
    rcases List.pairwise_cons.mp hp with ⟨hy, hys⟩
    simp only [insertDesc]
    split
    · rename_i hlt
      refine List.pairwise_cons.mpr ⟨?_, hp⟩
      intro b hb
      rcases List.mem_cons.mp hb with rfl | hb
      · exact le_of_lt hlt
      · exact le_trans (hy b hb) (le_of_lt hlt)
    · rename_i hge
      refine List.pairwise_cons.mpr ⟨?_, ih hys⟩
      intro b hb
      rcases mem_insertDesc.mp hb with rfl | hb
      · exact not_lt.mp hge
      · exact hy b hb

/-- The sort produces a descending pairwise-ordered list. -/
theorem sortDesc_pairwise :
    ∀ (l : List (ℚ × KBArticle)),
      (sortDesc l).Pairwise (fun a b => b.1 ≤ a.1) := by
  intro l
  induction l with
  | nil => simp [sortDesc]
  | cons x xs ih => exact insertDesc_pairwise ih

/-- With no lexical overlap, every scoring increment is zero and the fold
returns its seed. -/
theorem relevance_foldl_zero (title_lower content_lower : String)
    (keywords_lower : List String) :
    ∀ (terms : List String) (s : ℚ),
      (∀ term ∈ terms, inStr term title_lower = false ∧
        keywords_lower.any (fun kw => inStr term kw) = false ∧
        inStr term content_lower = false) →
      terms.foldl
        (fun s term =>
          s + (if inStr term title_lower then (4/10 : ℚ) else 0)
            + (if keywords_lower.any (fun kw => inStr term kw) then (3/10 : ℚ) else 0)
            + (if inStr term content_lower then (15/100 : ℚ) else 0))
        s = s := by
  intro terms
  induction terms with
  | nil =>
    intro s _
    rfl
  | cons term rest ih =>
    intro s h
    obtain ⟨h1, h2, h3⟩ := h term (by simp)
    simp only [List.foldl_cons, h1, h2, h3, if_false, Bool.false_eq_true,
      add_zero]
    exact ih s fun x hx => h x (by simp [hx])

/-- A query with no lexical overlap scores zero against every catalog
article. -/
theorem relevance_zero_of_no_overlap (input : KnowledgeBaseInput)
    (h : kbNoOverlap input = true) (a : KBArticle)
    (ha : a ∈ KNOWLEDGE_BASE_ARTICLES) :
    calculate_relevance (kbQueryTerms input) a = 0 := by
  have hterms : ∀ term ∈ kbQueryTerms input,
      inStr term (pyLower a.title) = false ∧
      ((a.keywords.map pyLower).any fun kw => inStr term kw) = false ∧
      inStr term (pyLower a.content) = false := by
    intro term hterm
    have h1 := List.all_eq_true.mp h term hterm
    have h2 := List.all_eq_true.mp h1 a ha
    simp only [Bool.and_eq_true, Bool.not_eq_true'] at h2
    exact ⟨h2.1.1, h2.1.2, h2.2⟩
  simp only [calculate_relevance]
  rw [relevance_foldl_zero _ _ _ _ 0 hterms]
  split
  · rw [zero_div]
    norm_num
  · rfl

/-- C8: the knowledge-base search contract.  Only catalog articles whose
unrounded relevance score strictly exceeds 0.1 are kept; `total_matches`
counts exactly the articles passing the threshold, before truncation; the
returned list is sorted by score descending and holds at most `max_results`
entries; every returned score lies in [0, 1]; and a query with no lexical
overlap with the catalog returns no results and `total_matches = 0`. -/
theorem C8_knowledge_base_search_contract (input : KnowledgeBaseInput) :
    (∀ r ∈ (kbExecute input).results,
        0 ≤ r.relevance_score ∧ r.relevance_score ≤ 1) ∧
    (∀ r ∈ (kbExecute input).results, ∃ a ∈ KNOWLEDGE_BASE_ARTICLES,
        (1/10 : ℚ) < calculate_relevance (kbQueryTerms input) a ∧
        r.relevance_score = round2 (calculate_relevance (kbQueryTerms input) a)) ∧
    (kbExecute input).results.length ≤ input.max_results ∧
    (kbExecute input).results.Pairwise
        (fun x y => y.relevance_score ≤ x.relevance_score) ∧
    (kbExecute input).total_matches
        = (KNOWLEDGE_BASE_ARTICLES.filter (kbKeep input)).length ∧
    (kbNoOverlap input = true →
        (kbExecute input).results = [] ∧ (kbExecute input).total_matches = 0) := by
  refine ⟨?_, ?_, ?_, ?_, ?_, ?_⟩
  · intro r hr
    rcases List.mem_map.mp hr with ⟨sa, hsa, rfl⟩
    have hsc : sa ∈ kbScored input :=
      mem_sortDesc.mp (List.mem_of_mem_take hsa)
    obtain ⟨ha, hs, hlt⟩ := kbScored_mem hsc
    have hb := calculate_relevance_bounds (kbQueryTerms input) sa.2
    rw [← hs] at hb
    exact round2_bounds hb.1 hb.2
  · intro r hr
    rcases List.mem_map.mp hr with ⟨sa, hsa, rfl⟩
    have hsc : sa ∈ kbScored input :=
      mem_sortDesc.mp (List.mem_of_mem_take hsa)
    obtain ⟨ha, hs, hlt⟩ := kbScored_mem hsc
    exact ⟨sa.2, ha, hs ▸ hlt, by rw [← hs]⟩
  · show (((sortDesc (kbScored input)).take input.max_results).map _).length ≤ _
    rw [List.length_map, List.length_take]
    exact min_le_left _ _
  · show ((((sortDesc (kbScored input)).take input.max_results).map _)).Pairwise _
    refine List.pairwise_map.mpr ?_
    refine List.Pairwise.imp ?_
      (((sortDesc_pairwise (kbScored input)).sublist (List.take_sublist _ _)))
    intro a b hab
    exact round2_mono hab
  · exact kbScored_length input
  · intro h
    have hempty : kbScored input = [] := by
      unfold kbScored
      refine List.filterMap_eq_nil_iff.mpr ?_
      intro a ha
      have hz := relevance_zero_of_no_overlap input h a ha
      rw [hz]
      split
      · rw [if_neg (by norm_num)]
      · rfl
    show ((((sortDesc (kbScored input)).take input.max_results).map _) = [] ∧
      (kbScored input).length = 0)
    rw [hempty]
    constructor
    · show List.map _ (List.take input.max_results (sortDesc [])) = []
      simp [sortDesc]
    · rfl

set_option maxRecDepth 1000000 in
/-- Witness for C8: the query "qqq" has no lexical overlap with the catalog
and returns no results with `total_matches = 0`. -/
theorem C8_witness :
    (kbExecute { query := "qqq" }).results = [] ∧
    (kbExecute { query := "qqq" }).total_matches = 0 :=
  (C8_knowledge_base_search_contract { query := "qqq" }).2.2.2.2.2
    (by with_unfolding_all decide)
